import Mathlib

/-!
Verification development for the Gest application shell
(`src/main.py` and `src/utils/__init__.py`).

The model is a shallow embedding of the lifecycle code of
`GestApplication` (`__init__`, `run`, `on_closing`, `main`) and of the
logging configuration code (`GestLogger._setup_logger`, module-level
`setup_logger`).  Side effects (log calls, resource acquisition and
release, GUI operations, console prints) are recorded as an event trace;
external collaborator behaviour (configuration loading, component
getters, the Tk dialog and event loop) is supplied by an `Env` record of
outcomes, so that the definitions below are deterministic functions of
that environment.
-/

/-- Resources of the Gest application core, in the order
`GestApplication.__init__` acquires them (main.py lines 53-57). -/
inductive Resource where
  | cameraManager
  | detectionEngine
  | featureProcessor
  | gestureClassifier
  | actionExecutor
deriving DecidableEq, Repr

/-- Acquisition order of the five core components in `__init__`. -/
def acquisitionOrder : List Resource :=
  [.cameraManager, .detectionEngine, .featureProcessor,
   .gestureClassifier, .actionExecutor]

/-- Observable events of a run: log records, resource operations, GUI
operations and console prints.  `sinksConfigured` records the argument
that `setup_logger` was invoked with (`none` = called without a config,
as main.py line 40 does). -/
inductive Event where
  | sinksConfigured (cfgLevel : Option Nat)
  | logInfo (msg : String)
  | logError (msg : String)
  | acquire (r : Resource)
  | release (r : Resource)
  | guiQuit
  | guiDestroy
  | mainloopEntered
  | printed (msg : String)
deriving DecidableEq, Repr

/-- Attribute state of a `GestApplication` object.  A `Bool` field is
`true` when the corresponding Python attribute has been assigned
(`hasattr` succeeds).  `root = none` models the `root` attribute being
absent; `some false` models `self.root = None`; `some true` models a
created Tk window (truthy — note Tk never resets it to `None`, so it
stays truthy even after `destroy`). -/
structure AppState where
  camera_manager : Bool
  detection_engine : Bool
  feature_processor : Bool
  gesture_classifier : Bool
  action_executor : Bool
  root : Option Bool
deriving DecidableEq, Repr

/-- Projection of a trace onto the released resources, in order. -/
def releasesOf (evs : List Event) : List Resource :=
  evs.filterMap fun e =>
    match e with
    | .release r => some r
    | _ => none

/-- Projection of a trace onto the acquired resources, in order. -/
def acquiresOf (evs : List Event) : List Resource :=
  evs.filterMap fun e =>
    match e with
    | .acquire r => some r
    | _ => none

/-- Number of occurrences of one event in a trace. -/
def countEvent (e : Event) (evs : List Event) : Nat :=
  evs.count e

/-- Embedding of `GestApplication.on_closing` (main.py lines 204-221).
It logs, releases `camera_manager` and `detection_engine` when those
attributes exist (`hasattr` guards), runs `quit`/`destroy` when
`self.root` is truthy, and logs again.  The result is the list of
events performed together with an optional uncaught exception: reading
`self.root` when the attribute was never assigned raises
`AttributeError` after the releases already ran.  No attribute is
cleared, so the application state is unchanged by the call. -/
def on_closing (s : AppState) : List Event × Option String :=
  let pre := [Event.logInfo "Closing Gest application..."]
      ++ (if s.camera_manager then [Event.release .cameraManager] else [])
      ++ (if s.detection_engine then [Event.release .detectionEngine] else [])
  match s.root with
  | none => (pre, some "AttributeError: root")
  | some win =>
    (pre ++ (if win then [Event.guiQuit, Event.guiDestroy] else [])
         ++ [Event.logInfo "Gest application closed"], none)

/-! ## Logging subsystem (`src/utils/__init__.py`) -/

/-- Loguru numeric severity levels used by the code:
DEBUG = 10, INFO = 20, WARNING = 30, ERROR = 40. -/
def debugLevel : Nat := 10

/-- Loguru numeric level of INFO records. -/
def infoLevel : Nat := 20

/-- Loguru numeric level of WARNING records. -/
def warningLevel : Nat := 30

/-- Loguru numeric level of ERROR records. -/
def errorLevel : Nat := 40

/-- Logging configuration dictionary of `GestLogger`
(`log_dir`, `max_file_size`, `backup_count`, `format`, `level`);
`max_file_size` is kept as a byte count and `level` as the numeric
loguru severity of the named level. -/
structure LogConfig where
  log_dir : String
  max_file_size : Nat
  backup_count : Nat
  format : String
  level : Nat
deriving DecidableEq, Repr

/-- Default configuration returned by `GestLogger._get_default_config`
(utils/__init__.py lines 28-36): level "INFO" = 20, 10MB rotation,
5 backups. -/
def defaultLogConfig : LogConfig :=
  { log_dir := "logs"
    max_file_size := 10485760
    backup_count := 5
    format := "\x7btime:YYYY-MM-DD HH:mm:ss\x7d | \x7blevel\x7d | \x7bname\x7d:\x7bfunction\x7d:\x7bline\x7d | \x7bmessage\x7d"
    level := infoLevel }

/-- The three targets `_setup_logger` attaches sinks to: stderr console,
the all-level file `gest_\x7btime\x7d.log`, and the error-only file
`gest_errors_\x7btime\x7d.log`. -/
inductive SinkTarget where
  | console
  | allFile
  | errorFile
deriving DecidableEq, Repr

/-- One loguru handler as added by `logger.add`: target, minimum
severity, format template, and rotation/retention/compression policy
(`none` rotation = console sink, never rotates). -/
structure Sink where
  target : SinkTarget
  minLevel : Nat
  fmtTemplate : String
  rotation : Option Nat
  retention : Option Nat
  compression : Bool
deriving DecidableEq, Repr

/-- Hard-coded colorized console format of `_setup_logger`
(utils/__init__.py lines 50-53), with the loguru placeholders kept
verbatim. -/
def consoleFormat : String :=
  "<green>\x7btime:YYYY-MM-DD HH:mm:ss\x7d</green> | <level>\x7blevel\x7d</level> | <cyan>\x7bname\x7d</cyan>:<cyan>\x7bfunction\x7d</cyan>:<cyan>\x7bline\x7d</cyan> - <level>\x7bmessage\x7d</level>"

/-- Sink set built by `GestLogger._setup_logger` (utils/__init__.py
lines 38-80) from one configuration: after `logger.remove()` it adds a
console sink at the configured level, the all-logs file sink at DEBUG,
and the error file sink at ERROR.  Because of the initial `remove`, the
result is independent of whatever sinks were installed before. -/
def setupSinks (cfg : LogConfig) : List Sink :=
  [ { target := .console, minLevel := cfg.level, fmtTemplate := consoleFormat,
      rotation := none, retention := none, compression := false },
    { target := .allFile, minLevel := debugLevel, fmtTemplate := cfg.format,
      rotation := some cfg.max_file_size, retention := some cfg.backup_count,
      compression := true },
    { target := .errorFile, minLevel := errorLevel, fmtTemplate := cfg.format,
      rotation := some cfg.max_file_size, retention := some cfg.backup_count,
      compression := true } ]

/-- Routing of one record by loguru: the record of severity `recLevel`
is written to every installed sink whose minimum severity it meets, in
sink order. -/
def emitTargets (sinks : List Sink) (recLevel : Nat) : List SinkTarget :=
  (sinks.filter fun s => decide (s.minLevel ≤ recLevel)).map (·.target)

/-- Global state of the logging module: the loguru sink set and the
module-level `_logger_instance` singleton (utils/__init__.py line 87),
recorded as the configuration the instance was built with (`none` while
`_logger_instance is None`). -/
structure LoggerState where
  sinks : List Sink
  inst : Option LogConfig
deriving DecidableEq, Repr

/-- Logging state at interpreter start: loguru's built-in stderr handler
(DEBUG level) is installed and `_logger_instance` is `None`. -/
def loguruStart : LoggerState :=
  { sinks := [ { target := .console, minLevel := debugLevel,
                 fmtTemplate := "loguru-default", rotation := none,
                 retention := none, compression := false } ]
    inst := none }

/-- Embedding of module-level `setup_logger` (utils/__init__.py lines
89-102): when `_logger_instance is None` it constructs
`GestLogger(config)` — whose `_setup_logger` replaces all sinks with
`setupSinks` of the given (or default) configuration — and otherwise it
returns the existing instance unchanged, ignoring the `config`
argument. -/
def setup_logger (config : Option LogConfig) (st : LoggerState) : LoggerState :=
  match st.inst with
  | some _ => st
  | none =>
    let cfg := config.getD defaultLogConfig
    { sinks := setupSinks cfg, inst := some cfg }

/-! ## Lifecycle (`src/main.py`) -/

/-- Outcome of one Python call in the embedding: normal return, an
uncaught `Exception`, a `KeyboardInterrupt` (which `except Exception`
clauses do not catch), or a `SystemExit` raised by `sys.exit`. -/
inductive PyResult (α : Type) where
  | ok (a : α)
  | exn (msg : String)
  | interrupt
  | sysExit (code : Nat)
deriving Repr, DecidableEq

/-- The two values `show_startup_dialog` can return: `"trainer"` from
its button, or `"exit"` (the `StringVar` default, also produced by the
exit button or by dismissing the dialog).  No `"main"` branch exists in
the dialog despite the docstring. -/
inductive DialogChoice where
  | trainer
  | exitMode
deriving DecidableEq, Repr

/-- How the Tk main event loop ends, once entered: the user closes the
window (firing the `WM_DELETE_WINDOW` handler `on_closing`, after which
`quit` stops the loop), a callback raises an exception, or a
`KeyboardInterrupt` arrives. -/
inductive LoopEnd where
  | userClose
  | fault (msg : String)
  | interrupt
deriving DecidableEq, Repr

/-- Behaviour of the external collaborators during one run: whether
configuration loading succeeds, the logging-relevant keys the loaded
settings carry (spec section 6), which component getter (if any) raises
during acquisition, how the startup dialog resolves, whether
`GestureTrainerGUI` construction succeeds, and how the main loop
ends. -/
structure Env where
  configOk : Bool
  configErrMsg : String
  settings : LogConfig
  camFail : Option String
  detFail : Option String
  featFail : Option String
  classFail : Option String
  actFail : Option String
  dialogInterrupt : Bool
  dialogChoice : DialogChoice
  trainerOk : Bool
  trainerErrMsg : String
  loopEnd : LoopEnd

/-- The getter outcome the environment assigns to one resource:
`some msg` means the `get_*` call raises an exception with that
message. -/
def Env.acquireFail (env : Env) : Resource → Option String
  | .cameraManager => env.camFail
  | .detectionEngine => env.detFail
  | .featureProcessor => env.featFail
  | .gestureClassifier => env.classFail
  | .actionExecutor => env.actFail

/-- Marking one resource attribute as assigned on the application
object. -/
def AppState.setAcquired (s : AppState) : Resource → AppState
  | .cameraManager => { s with camera_manager := true }
  | .detectionEngine => { s with detection_engine := true }
  | .featureProcessor => { s with feature_processor := true }
  | .gestureClassifier => { s with gesture_classifier := true }
  | .actionExecutor => { s with action_executor := true }

/-- The acquisition block of `__init__` (main.py lines 52-57): the
getters run in `acquisitionOrder`; each success assigns the attribute,
and the first raising getter aborts the rest with its exception.  The
result is the state reached, the acquire events, and the first
exception message if any. -/
def acquireLoop (env : Env) (s : AppState) :
    List Resource → AppState × List Event × Option String
  | [] => (s, [], none)
  | r :: rs =>
    match env.acquireFail r with
    | some msg => (s, [], some msg)
    | none =>
      let (s', evs, err) := acquireLoop env (s.setAcquired r) rs
      (s', Event.acquire r :: evs, err)

/-- Result of `GestApplication.__init__`: its event trace, the
constructed application state (or the control-flow exception leaving
the constructor), and the logging-module state it leaves behind. -/
structure InitOutcome where
  events : List Event
  result : PyResult AppState
  loggerState : LoggerState
deriving Repr

/-- The application object before any attribute assignment. -/
def emptyAppState : AppState :=
  { camera_manager := false, detection_engine := false,
    feature_processor := false, gesture_classifier := false,
    action_executor := false, root := none }

/-- Embedding of `GestApplication.__init__` (main.py lines 37-64).
In order: `setup_logger()` with no argument (installing the default
sink set and logging an Info record), the startup Info record,
configuration loading (on failure an Error record then `sys.exit(1)`),
the five component acquisitions, the GUI attribute defaults
(`self.root = None`), and the final Info record.  A getter exception
propagates out of the constructor. -/
def gestInit (env : Env) : InitOutcome :=
  let lst := setup_logger none loguruStart
  let ev0 := [Event.sinksConfigured none,
              Event.logInfo "Logger initialized successfully",
              Event.logInfo "Starting Gest Application..."]
  if env.configOk then
    let ev1 := ev0 ++ [Event.logInfo "Configuration loaded successfully"]
    let (s, aevs, err) := acquireLoop env emptyAppState acquisitionOrder
    match err with
    | some msg => { events := ev1 ++ aevs, result := .exn msg, loggerState := lst }
    | none =>
      { events := ev1 ++ aevs
          ++ [Event.logInfo "Gest application initialized successfully"]
        result := .ok { s with root := some false }
        loggerState := lst }
  else
    { events := ev0
        ++ [Event.logError ("Failed to load configuration: " ++ env.configErrMsg)]
      result := .sysExit 1
      loggerState := lst }

/-- Modelled from the spec: the decorator `handle_exceptions` from
`utils.error_handler`, which is imported by main.py (line 30) but whose
module is not under src/.  Per spec sections 7 and 9 ("decorator-style
exception swallowing", "all errors are caught at the
LifecycleController boundary ... and a LogRecord"), it catches any
`Exception` escaping the wrapped call, emits an Error record with the
original message, and returns normally; `KeyboardInterrupt` and
`SystemExit` are not `Exception`s and pass through. -/
def handle_exceptions (r : List Event × PyResult Unit) : List Event × PyResult Unit :=
  match r with
  | (evs, .exn msg) => (evs ++ [Event.logError msg], .ok ())
  | other => other

/-- Embedding of the body of `GestApplication.run` (main.py lines
183-202), before its `handle_exceptions` decoration.  It logs, creates
the main window (making `self.root` a truthy Tk object and installing
`on_closing` as the `WM_DELETE_WINDOW` handler), blocks on the startup
dialog, and then: on `"exit"` calls `on_closing` and returns; on
`"trainer"` runs `run_trainer_mode` (which catches its own exception
and logs it) and falls through to `mainloop`.  The main loop either
ends by a user close (running `on_closing` via the protocol handler),
or lets a fault or interrupt propagate with no teardown. -/
def runBody (env : Env) (s0 : AppState) : List Event × PyResult Unit :=
  let s := { s0 with root := some true }
  let ev := [Event.logInfo "Starting Gest application...",
             Event.logInfo "Main window created: Gest - Gesture Recognition"]
  if env.dialogInterrupt then (ev, .interrupt)
  else
    match env.dialogChoice with
    | .exitMode =>
      let (cevs, cerr) := on_closing s
      match cerr with
      | some m => (ev ++ cevs, .exn m)
      | none => (ev ++ cevs, .ok ())
    | .trainer =>
      let tevs :=
        if env.trainerOk then [Event.logInfo "Gesture trainer mode started"]
        else [Event.logError ("Error running trainer mode: " ++ env.trainerErrMsg)]
      let ev := ev ++ tevs
        ++ [Event.logInfo "Starting GUI event loop...", Event.mainloopEntered]
      match env.loopEnd with
      | .userClose =>
        let (cevs, cerr) := on_closing s
        match cerr with
        | some m => (ev ++ cevs, .exn m)
        | none => (ev ++ cevs, .ok ())
      | .fault msg => (ev, .exn msg)
      | .interrupt => (ev, .interrupt)

/-- Embedding of `GestApplication.run` as called: the body wrapped in
the `handle_exceptions` decorator (main.py line 183). -/
def gestRun (env : Env) (s0 : AppState) : List Event × PyResult Unit :=
  handle_exceptions (runBody env s0)

/-- Embedding of `main` (main.py lines 223-235) followed by the
interpreter's exit: `GestApplication()` then `app.run()` inside
`try/except KeyboardInterrupt/except Exception/finally`.  The result is
the process exit code and the full event trace.  `except Exception`
prints the error and falls through (exit code 0); `KeyboardInterrupt`
prints its message (exit code 0); a `SystemExit` from `__init__`
matches neither handler, so it reaches the interpreter, which uses its
code — in every case the `finally` print runs. -/
def mainFn (env : Env) : Nat × List Event :=
  let fin := [Event.printed "Gest application terminated"]
  let io := gestInit env
  match io.result with
  | .sysExit c => (c, io.events ++ fin)
  | .exn msg =>
    (0, io.events ++ [Event.printed ("Application error: " ++ msg)] ++ fin)
  | .interrupt =>
    (0, io.events ++ [Event.printed "\nApplication interrupted by user"] ++ fin)
  | .ok s =>
    let (revs, rr) := gestRun env s
    match rr with
    | .ok _ => (0, io.events ++ revs ++ fin)
    | .exn msg =>
      (0, io.events ++ revs
        ++ [Event.printed ("Application error: " ++ msg)] ++ fin)
    | .interrupt =>
      (0, io.events ++ revs
        ++ [Event.printed "\nApplication interrupted by user"] ++ fin)
    | .sysExit c => (c, io.events ++ revs ++ fin)

/-- Whether every component getter of the environment succeeds. -/
def Env.allAcquireOk (env : Env) : Bool :=
  env.camFail.isNone && env.detFail.isNone && env.featFail.isNone
    && env.classFail.isNone && env.actFail.isNone

/-! Concrete runs used by the theorems below. -/

/-- Run in which everything succeeds and the user picks "exit" in the
startup dialog. -/
def happyEnv : Env :=
  { configOk := true, configErrMsg := "", settings := defaultLogConfig,
    camFail := none, detFail := none, featFail := none, classFail := none,
    actFail := none, dialogInterrupt := false, dialogChoice := .exitMode,
    trainerOk := true, trainerErrMsg := "", loopEnd := .userClose }

/-- Run interrupted by `KeyboardInterrupt` while the startup dialog is
waiting, after every resource was acquired. -/
def interruptEnv : Env := { happyEnv with dialogInterrupt := true }

/-- Run in which the user picks trainer mode and then closes the window
from the running main loop. -/
def closeEnv : Env :=
  { happyEnv with dialogChoice := .trainer, loopEnd := .userClose }

/-- Run in which the main loop raises an exception ("boom"). -/
def faultEnv : Env :=
  { happyEnv with dialogChoice := .trainer, loopEnd := .fault "boom" }

/-- Run in which the camera getter raises during acquisition. -/
def acqFailEnv : Env := { happyEnv with camFail := some "no camera" }

/-- Fully initialized application with its main window created: the
state on which `on_closing` runs in a complete run. -/
def fullApp : AppState :=
  { camera_manager := true, detection_engine := true,
    feature_processor := true, gesture_classifier := true,
    action_executor := true, root := some true }

/-- Whether a trace carries no Error record at all. -/
def hasNoLogError (evs : List Event) : Bool :=
  evs.all fun e =>
    match e with
    | .logError _ => false
    | _ => true

/-- Claim C1 as stated is false: in the run where all five resources
are acquired (camera manager, detection engine, feature processor,
gesture classifier, action executor) and shutdown is invoked via the
exit choice, the teardown pass releases only the camera manager and the
detection engine — two of the five — and not in reverse acquisition
order. -/
theorem C1_counterexample :
    acquiresOf (mainFn happyEnv).2 = acquisitionOrder ∧
    releasesOf (mainFn happyEnv).2 ≠ acquisitionOrder.reverse ∧
    releasesOf (mainFn happyEnv).2
      = [Resource.cameraManager, Resource.detectionEngine] := by
  refine ⟨by decide, by decide, by decide⟩

/-- Claim C1 amended: in every run in which all five resources are
successfully acquired and shutdown is then invoked (exit choice), the
teardown pass releases exactly the camera manager and the detection
engine, each once, in acquisition order; the other three resources are
never released. -/
theorem C1_amended (env : Env) (hc : env.configOk = true)
    (ha : env.allAcquireOk = true) (hd : env.dialogInterrupt = false)
    (he : env.dialogChoice = DialogChoice.exitMode) :
    acquiresOf (mainFn env).2 = acquisitionOrder ∧
    releasesOf (mainFn env).2
      = [Resource.cameraManager, Resource.detectionEngine] := by
  simp only [Env.allAcquireOk, Bool.and_eq_true, Option.isNone_iff_eq_none] at ha
  obtain ⟨⟨⟨⟨h1, h2⟩, h3⟩, h4⟩, h5⟩ := ha
  simp [mainFn, gestInit, gestRun, runBody, handle_exceptions, on_closing,
        acquireLoop, Env.acquireFail, AppState.setAcquired, acquisitionOrder,
        emptyAppState, hc, hd, he, h1, h2, h3, h4, h5, releasesOf, acquiresOf]

/-- Witness for C1_amended at the concrete happy run. -/
theorem C1_amended_witness :
    acquiresOf (mainFn happyEnv).2 = acquisitionOrder ∧
    releasesOf (mainFn happyEnv).2
      = [Resource.cameraManager, Resource.detectionEngine] :=
  C1_amended happyEnv (by decide) (by decide) (by decide) (by decide)

/-- Claim C2 as stated is false: `on_closing` assigns no attribute and
sets no flag, so the second of two consecutive calls sees the identical
state and repeats everything — on the fully initialized application,
two consecutive calls release the camera manager twice and emit the
final "Gest application closed" record twice, where the claim demands
one release per resource and one final record. -/
theorem C2_counterexample :
    countEvent (Event.release .cameraManager)
      ((on_closing fullApp).1 ++ (on_closing fullApp).1) = 2 ∧
    countEvent (Event.release .detectionEngine)
      ((on_closing fullApp).1 ++ (on_closing fullApp).1) = 2 ∧
    countEvent (Event.logInfo "Gest application closed")
      ((on_closing fullApp).1 ++ (on_closing fullApp).1) = 2 := by
  refine ⟨by decide, by decide, by decide⟩

/-- Claim C2 amended: `on_closing` is not idempotent.  It mutates no
application attribute, so a second consecutive call repeats the full
teardown pass and the final log record: on every state whose `root`
attribute exists, one call emits the final record exactly once, and two
consecutive calls emit it twice and perform every release twice. -/
theorem C2_amended (c d f g a win : Bool) :
    countEvent (Event.logInfo "Gest application closed")
      (on_closing ⟨c, d, f, g, a, some win⟩).1 = 1 ∧
    countEvent (Event.logInfo "Gest application closed")
      ((on_closing ⟨c, d, f, g, a, some win⟩).1
        ++ (on_closing ⟨c, d, f, g, a, some win⟩).1) = 2 ∧
    ∀ r : Resource,
      countEvent (Event.release r)
        ((on_closing ⟨c, d, f, g, a, some win⟩).1
          ++ (on_closing ⟨c, d, f, g, a, some win⟩).1)
        = 2 * countEvent (Event.release r) (on_closing ⟨c, d, f, g, a, some win⟩).1 := by
  cases c <;> cases d <;> cases f <;> cases g <;> cases a <;> cases win <;>
    exact ⟨by decide, by decide, fun r => by cases r <;> decide⟩

/-- Witness for C2_amended at the fully initialized application. -/
theorem C2_amended_witness :
    countEvent (Event.logInfo "Gest application closed") (on_closing fullApp).1 = 1 ∧
    countEvent (Event.release .cameraManager)
      ((on_closing fullApp).1 ++ (on_closing fullApp).1)
      = 2 * countEvent (Event.release .cameraManager) (on_closing fullApp).1 := by
  obtain ⟨h1, h2, h3⟩ := C2_amended true true true true true true
  exact ⟨h1, h3 .cameraManager⟩

/-- Claim C10 confirmed: on any partially initialized application whose
`root` attribute has been assigned, `on_closing` raises no attribute
error, releases exactly the resources among camera manager and
detection engine whose attributes exist (in that order), and skips GUI
destruction when no window was created. -/
theorem C10_partial_close (c d f g a win : Bool) :
    (on_closing ⟨c, d, f, g, a, some win⟩).2 = none ∧
    releasesOf (on_closing ⟨c, d, f, g, a, some win⟩).1
      = (if c then [Resource.cameraManager] else [])
        ++ (if d then [Resource.detectionEngine] else []) ∧
    (win = false → Event.guiDestroy ∉ (on_closing ⟨c, d, f, g, a, some win⟩).1) := by
  cases c <;> cases d <;> cases f <;> cases g <;> cases a <;> cases win <;>
    exact ⟨by decide, by decide, by intro hw; first | (exact absurd hw (by decide)) | decide⟩

/-- Witness for C10_partial_close: only the camera manager attribute
exists and no window was created. -/
theorem C10_partial_close_witness :
    (on_closing ⟨true, false, false, false, false, some false⟩).2 = none ∧
    releasesOf (on_closing ⟨true, false, false, false, false, some false⟩).1
      = [Resource.cameraManager] ∧
    Event.guiDestroy ∉ (on_closing ⟨true, false, false, false, false, some false⟩).1 := by
  obtain ⟨h1, h2, h3⟩ := C10_partial_close true false false false false false
  exact ⟨h1, by simpa using h2, h3 rfl⟩

/-- Claim C3 as stated is false: an external interrupt
(`KeyboardInterrupt`) arriving during mode selection, after all five
resources were acquired, is caught by the bare `except
KeyboardInterrupt` in `main` without any call to `on_closing` — the
trace of that run contains all five acquisitions and not a single
release, so no teardown pass runs at all, let alone a full one. -/
theorem C3_counterexample :
    acquiresOf (mainFn interruptEnv).2 = acquisitionOrder ∧
    releasesOf (mainFn interruptEnv).2 = [] ∧
    Event.printed "\nApplication interrupted by user" ∈ (mainFn interruptEnv).2 := by
  refine ⟨by decide, by decide, by decide⟩

/-- Claim C3 amended: in a fully acquired run, a user-initiated window
close during mode selection or while the mode is running
deterministically routes to `on_closing`, which runs to completion but
releases only the camera manager and the detection engine (the other
three acquired resources stay unreleased); an external interrupt
triggers no teardown at all. -/
theorem C3_amended (env : Env) (hc : env.configOk = true)
    (ha : env.allAcquireOk = true) :
    (env.dialogInterrupt = false → env.dialogChoice = DialogChoice.exitMode →
      releasesOf (mainFn env).2 = [Resource.cameraManager, Resource.detectionEngine] ∧
      Event.logInfo "Gest application closed" ∈ (mainFn env).2) ∧
    (env.dialogInterrupt = false → env.dialogChoice = DialogChoice.trainer →
      env.loopEnd = LoopEnd.userClose →
      releasesOf (mainFn env).2 = [Resource.cameraManager, Resource.detectionEngine] ∧
      Event.logInfo "Gest application closed" ∈ (mainFn env).2) ∧
    (env.dialogInterrupt = true → releasesOf (mainFn env).2 = []) ∧
    (env.dialogInterrupt = false → env.dialogChoice = DialogChoice.trainer →
      env.loopEnd = LoopEnd.interrupt → releasesOf (mainFn env).2 = []) := by
  simp only [Env.allAcquireOk, Bool.and_eq_true, Option.isNone_iff_eq_none] at ha
  obtain ⟨⟨⟨⟨h1, h2⟩, h3⟩, h4⟩, h5⟩ := ha
  refine ⟨fun hd he => ?_, fun hd he hl => ?_, fun hd => ?_, fun hd he hl => ?_⟩
  · simp [mainFn, gestInit, gestRun, runBody, handle_exceptions, on_closing,
          acquireLoop, Env.acquireFail, AppState.setAcquired, acquisitionOrder,
          emptyAppState, hc, hd, he, h1, h2, h3, h4, h5, releasesOf]
  · cases htr : env.trainerOk <;>
      simp [mainFn, gestInit, gestRun, runBody, handle_exceptions, on_closing,
            acquireLoop, Env.acquireFail, AppState.setAcquired, acquisitionOrder,
            emptyAppState, hc, hd, he, hl, htr, h1, h2, h3, h4, h5, releasesOf]
  · simp [mainFn, gestInit, gestRun, runBody, handle_exceptions,
          acquireLoop, Env.acquireFail, AppState.setAcquired, acquisitionOrder,
          emptyAppState, hc, hd, h1, h2, h3, h4, h5, releasesOf]
  · cases htr : env.trainerOk <;>
      simp [mainFn, gestInit, gestRun, runBody, handle_exceptions,
            acquireLoop, Env.acquireFail, AppState.setAcquired, acquisitionOrder,
            emptyAppState, hc, hd, he, hl, htr, h1, h2, h3, h4, h5, releasesOf]

/-- Witness for C3_amended: the close-from-running-mode conjunct at the
concrete `closeEnv` run and the interrupt conjunct at the concrete
`interruptEnv` run. -/
theorem C3_amended_witness :
    (releasesOf (mainFn closeEnv).2
      = [Resource.cameraManager, Resource.detectionEngine] ∧
     Event.logInfo "Gest application closed" ∈ (mainFn closeEnv).2) ∧
    releasesOf (mainFn interruptEnv).2 = [] := by
  refine ⟨(C3_amended closeEnv (by decide) (by decide)).2.1 (by decide) (by decide) (by decide),
          (C3_amended interruptEnv (by decide) (by decide)).2.2.1 (by decide)⟩

/-- Helper: the decorated `run` ends in a normal return or a
`KeyboardInterrupt`; it never produces a `SystemExit` and — because of
the `handle_exceptions` boundary — never an `Exception`. -/
theorem gestRun_result (env : Env) (s0 : AppState) :
    (gestRun env s0).2 = PyResult.ok () ∨ (gestRun env s0).2 = PyResult.interrupt := by
  cases hd : env.dialogInterrupt <;> cases hch : env.dialogChoice <;>
    cases hl : env.loopEnd <;> cases ht : env.trainerOk <;>
      simp [gestRun, handle_exceptions, runBody, on_closing, hd, hch, hl, ht]

/-- Claim C4 as stated is false: in the run whose main loop raises the
fault "boom" (a run-loop error, so the spec demands a non-zero exit
code), the Error record is logged but `main` catches the exception and
the process still exits with code 0. -/
theorem C4_counterexample :
    Event.logError "boom" ∈ (mainFn faultEnv).2 ∧
    (mainFn faultEnv).1 = 0 := by
  refine ⟨by decide, by decide⟩

/-- Claim C4 amended: the process exit code is 1 exactly when loading
the configuration fails (the `sys.exit(1)` in `__init__`) and 0 in
every other run — normal terminations exit 0 as claimed, but
acquisition failures and run-loop faults are caught and also exit 0. -/
theorem C4_amended (env : Env) :
    (mainFn env).1 = if env.configOk then 0 else 1 := by
  cases hc : env.configOk
  · simp [mainFn, gestInit, hc]
  · rcases hq : acquireLoop env emptyAppState acquisitionOrder with ⟨s, aevs, err⟩
    cases err with
    | some m => simp [mainFn, gestInit, hc, hq]
    | none =>
      rcases hgr : gestRun env { s with root := some false } with ⟨revs, rr⟩
      rcases gestRun_result env { s with root := some false } with h | h <;>
        rw [hgr] at h <;> simp at h <;> subst h <;>
          simp [mainFn, gestInit, hc, hq, hgr]

/-- Witness for C4_amended at the faulting run. -/
theorem C4_amended_witness :
    (mainFn faultEnv).1 = if faultEnv.configOk then 0 else 1 :=
  C4_amended faultEnv

/-- Helper: the acquisition loop emits acquire events only. -/
theorem acquireLoop_events_acquire (env : Env) (s : AppState) (l : List Resource) :
    ∀ e ∈ (acquireLoop env s l).2.1, ∃ r, e = Event.acquire r := by
  induction l generalizing s with
  | nil => simp [acquireLoop]
  | cons r rs ih =>
    cases hf : env.acquireFail r with
    | some m => simp [acquireLoop, hf]
    | none =>
      intro e he
      rw [acquireLoop, hf] at he
      simp only [List.mem_cons] at he
      rcases he with rfl | he
      · exact ⟨r, rfl⟩
      · exact ih (s.setAcquired r) e he

/-- Helper: when `__init__` ends with a collaborator exception (a
getter raised), its trace carries no Error record at all — the
configuration Error record belongs to the `sys.exit(1)` branch only. -/
theorem gestInit_exn_noLogError (env : Env) (m : String)
    (h : (gestInit env).result = PyResult.exn m) :
    hasNoLogError (gestInit env).events = true := by
  cases hc : env.configOk
  · simp [gestInit, hc] at h
  · rcases hq : acquireLoop env emptyAppState acquisitionOrder with ⟨s, aevs, err⟩
    have hacq : ∀ e ∈ aevs, ∃ r, e = Event.acquire r := by
      have hgen := acquireLoop_events_acquire env emptyAppState acquisitionOrder
      rw [hq] at hgen
      exact hgen
    cases err with
    | none => simp [gestInit, hc, hq] at h
    | some mm =>
      simp only [gestInit, hc, hq, if_true]
      simp only [hasNoLogError, List.all_append, Bool.and_eq_true, List.all_eq_true]
      refine ⟨by decide, fun e he => ?_⟩
      obtain ⟨r, rfl⟩ := hacq e he
      rfl

/-- Claim C5 as stated is false: when the camera getter raises during
acquisition ("no camera"), the exception is caught in `main` and does
not propagate (the run returns exit code 0), but no log record with the
failure context is emitted anywhere in the run — the whole trace holds
no Error record, only the console print "Application error: no
camera". -/
theorem C5_counterexample :
    hasNoLogError (mainFn acqFailEnv).2 = true ∧
    Event.printed "Application error: no camera" ∈ (mainFn acqFailEnv).2 ∧
    (mainFn acqFailEnv).1 = 0 := by
  refine ⟨by decide, by decide, by decide⟩

/-- Claim C5 amended: every collaborator exception raised during
acquisition or during the mode run loop is caught before it can leave
`main` (the process terminates normally with exit code 0); a run-loop
exception is logged with its message by the `handle_exceptions`
boundary, but an acquisition exception is only printed to the console
by `main` — the trace of such a run carries no log record at all for
it. -/
theorem C5_amended (env : Env) :
    (∀ m, (gestInit env).result = PyResult.exn m →
      (mainFn env).1 = 0 ∧
      Event.printed ("Application error: " ++ m) ∈ (mainFn env).2 ∧
      hasNoLogError (mainFn env).2 = true) ∧
    (∀ m, env.configOk = true → env.allAcquireOk = true →
      env.dialogInterrupt = false → env.dialogChoice = DialogChoice.trainer →
      env.loopEnd = LoopEnd.fault m →
      (mainFn env).1 = 0 ∧ Event.logError m ∈ (mainFn env).2) := by
  constructor
  · intro m hm
    have hinit := gestInit_exn_noLogError env m hm
    simp only [hasNoLogError, List.all_eq_true] at hinit
    refine ⟨?_, ?_, ?_⟩
    · simp [mainFn, hm]
    · simp [mainFn, hm]
    · simp [mainFn, hm, hasNoLogError, List.all_append, List.all_eq_true]
      exact fun e he => hinit e he
  · intro m hc ha hd hch hl
    simp only [Env.allAcquireOk, Bool.and_eq_true, Option.isNone_iff_eq_none] at ha
    obtain ⟨⟨⟨⟨h1, h2⟩, h3⟩, h4⟩, h5⟩ := ha
    cases htr : env.trainerOk <;>
      simp [mainFn, gestInit, gestRun, runBody, handle_exceptions,
            acquireLoop, Env.acquireFail, AppState.setAcquired, acquisitionOrder,
            emptyAppState, hc, hd, hch, hl, htr, h1, h2, h3, h4, h5]

/-- Witness for C5_amended: the acquisition-exception conjunct at the
concrete camera-failure run and the run-loop-fault conjunct at the
concrete faulting run. -/
theorem C5_amended_witness :
    ((mainFn acqFailEnv).1 = 0 ∧
     Event.printed ("Application error: " ++ "no camera") ∈ (mainFn acqFailEnv).2 ∧
     hasNoLogError (mainFn acqFailEnv).2 = true) ∧
    ((mainFn faultEnv).1 = 0 ∧ Event.logError "boom" ∈ (mainFn faultEnv).2) :=
  ⟨(C5_amended acqFailEnv).1 "no camera" (by decide),
   (C5_amended faultEnv).2 "boom" (by decide) (by decide) (by decide) (by decide) (by decide)⟩

/-- Configuration whose console level is WARNING instead of the default
INFO, used to distinguish sink sets built from different
configurations. -/
def warnConfig : LogConfig := { defaultLogConfig with level := warningLevel }

/-- Run whose loaded settings carry the logging level WARNING. -/
def envLevel30 : Env := { happyEnv with settings := warnConfig }

/-- Claim C6 as stated is false on its "from the supplied
configuration" part: `__init__` calls `setup_logger()` with no argument
before the configuration is even loaded, so in the run whose supplied
settings ask for level WARNING the installed sink set is the one built
from the built-in default configuration (console at INFO), not from the
supplied one. -/
theorem C6_counterexample :
    (gestInit envLevel30).loggerState.sinks ≠ setupSinks envLevel30.settings ∧
    (gestInit envLevel30).loggerState.sinks = setupSinks defaultLogConfig := by
  refine ⟨by decide, by decide⟩

/-- Claim C6 amended: in every startup the first step of `__init__` is
to configure the logging subsystem — with the built-in default
configuration, the loaded settings are not passed to it — and this
step, together with its success Info record, forms the first two events
of the trace, before configuration loading and before any resource
acquisition begins. -/
theorem C6_amended (env : Env) :
    (gestInit env).loggerState.sinks = setupSinks defaultLogConfig ∧
    ∃ rest, (gestInit env).events
      = Event.sinksConfigured none
        :: Event.logInfo "Logger initialized successfully" :: rest := by
  constructor
  · cases hc : env.configOk
    · simp [gestInit, hc, setup_logger, loguruStart]
    · rcases hq : acquireLoop env emptyAppState acquisitionOrder with ⟨s, aevs, err⟩
      cases err <;> simp [gestInit, hc, hq, setup_logger, loguruStart]
  · cases hc : env.configOk
    · exact ⟨_, by simp [gestInit, hc]; rfl⟩
    · rcases hq : acquireLoop env emptyAppState acquisitionOrder with ⟨s, aevs, err⟩
      cases err <;> exact ⟨_, by simp [gestInit, hc, hq]; rfl⟩

/-- Claim C7 confirmed: when mode selection resolves to the exit
sentinel in a fully acquired run, the main event loop is never entered,
shutdown runs (its opening and closing records both appear), no Error
record is emitted in the whole run, and the process exit code is 0. -/
theorem C7_cancelled_no_running (env : Env) (hc : env.configOk = true)
    (ha : env.allAcquireOk = true) (hd : env.dialogInterrupt = false)
    (he : env.dialogChoice = DialogChoice.exitMode) :
    Event.mainloopEntered ∉ (mainFn env).2 ∧
    Event.logInfo "Closing Gest application..." ∈ (mainFn env).2 ∧
    Event.logInfo "Gest application closed" ∈ (mainFn env).2 ∧
    hasNoLogError (mainFn env).2 = true ∧
    (mainFn env).1 = 0 := by
  simp only [Env.allAcquireOk, Bool.and_eq_true, Option.isNone_iff_eq_none] at ha
  obtain ⟨⟨⟨⟨h1, h2⟩, h3⟩, h4⟩, h5⟩ := ha
  refine ⟨?_, ?_, ?_, ?_, ?_⟩ <;>
    simp [mainFn, gestInit, gestRun, runBody, handle_exceptions, on_closing,
          acquireLoop, Env.acquireFail, AppState.setAcquired, acquisitionOrder,
          emptyAppState, hc, hd, he, h1, h2, h3, h4, h5, hasNoLogError]

/-- Witness for C7_cancelled_no_running at the concrete happy run. -/
theorem C7_cancelled_no_running_witness :
    Event.mainloopEntered ∉ (mainFn happyEnv).2 ∧
    Event.logInfo "Closing Gest application..." ∈ (mainFn happyEnv).2 ∧
    Event.logInfo "Gest application closed" ∈ (mainFn happyEnv).2 ∧
    hasNoLogError (mainFn happyEnv).2 = true ∧
    (mainFn happyEnv).1 = 0 :=
  C7_cancelled_no_running happyEnv (by decide) (by decide) (by decide) (by decide)

/-- Claim C8 confirmed: for the sink set `_setup_logger` builds from
any configuration, a record reaches the console sink iff its severity
is at least the configured console level, the all-logs file sink iff at
least DEBUG, and the error-only file sink iff at least ERROR — so the
error file never receives a record below ERROR and the console never
receives one below its configured level. -/
theorem C8_severity_routing (cfg : LogConfig) (lvl : Nat) :
    (SinkTarget.console ∈ emitTargets (setupSinks cfg) lvl ↔ cfg.level ≤ lvl) ∧
    (SinkTarget.allFile ∈ emitTargets (setupSinks cfg) lvl ↔ debugLevel ≤ lvl) ∧
    (SinkTarget.errorFile ∈ emitTargets (setupSinks cfg) lvl ↔ errorLevel ≤ lvl) := by
  by_cases h1 : cfg.level ≤ lvl <;> by_cases h2 : debugLevel ≤ lvl <;>
    by_cases h3 : errorLevel ≤ lvl <;>
      simp [emitTargets, setupSinks, List.filter, h1, h2, h3]

/-- Witness for C8_severity_routing: an INFO record under the default
configuration reaches the console and the all-logs file but not the
error file. -/
theorem C8_severity_routing_witness :
    (SinkTarget.console ∈ emitTargets (setupSinks defaultLogConfig) infoLevel
      ↔ defaultLogConfig.level ≤ infoLevel) ∧
    (SinkTarget.allFile ∈ emitTargets (setupSinks defaultLogConfig) infoLevel
      ↔ debugLevel ≤ infoLevel) ∧
    (SinkTarget.errorFile ∈ emitTargets (setupSinks defaultLogConfig) infoLevel
      ↔ errorLevel ≤ infoLevel) :=
  C8_severity_routing defaultLogConfig infoLevel

/-- Claim C9 as stated is false: a second `setup_logger` call with a
new configuration (console level WARNING) leaves the sink set exactly
as the first call built it from the first configuration — the singleton
guard returns the existing `_logger_instance` and ignores the new
configuration entirely. -/
theorem C9_counterexample :
    (setup_logger (some warnConfig)
        (setup_logger (some defaultLogConfig) loguruStart)).sinks
      ≠ setupSinks warnConfig ∧
    (setup_logger (some warnConfig)
        (setup_logger (some defaultLogConfig) loguruStart)).sinks
      = setupSinks defaultLogConfig := by
  refine ⟨by decide, by decide⟩

/-- Claim C9 amended: for every pair of configurations, the first
`setup_logger` call installs the sink set built from its (or the
default) configuration, and a second call with any new configuration is
a no-op that keeps the existing instance and sink set and ignores its
argument. -/
theorem C9_amended (c1 c2 : Option LogConfig) :
    setup_logger c2 (setup_logger c1 loguruStart) = setup_logger c1 loguruStart ∧
    (setup_logger c1 loguruStart).sinks = setupSinks (c1.getD defaultLogConfig) := by
  cases c1 <;> cases c2 <;> simp [setup_logger, loguruStart]
